import Mathlib

/-!
Verification of the interferometer simulation script
`interferometer/simulators/light_sersic_exp.py` against its specification.

The script is a linear pipeline: path setup, grid construction, uv-wavelength
loading, simulator configuration, scene (plane) construction, rendering and
simulation, and output to fits / png / json files.  The heavy numerical parts
live in the external `autogalaxy` library; the specification treats them as
black boxes with stated contracts, so those parts are modelled here from the
spec's contracts, while every constant, path and call order is taken from the
script itself.
-/

namespace AGSim

/-- Python `os.path.join` for two components, as used by the script. -/
def pathJoin (a b : String) : String := a ++ "/" ++ b

/-- Script constant `dataset_type = "interferometer"` (line 27). -/
def dataset_type : String := "interferometer"

/-- Script constant `dataset_name = "light_sersic_exp"` (line 28). -/
def dataset_name : String := "light_sersic_exp"

/-- Script constant `dataset_path = path.join("dataset", dataset_type, dataset_name)`. -/
def dataset_path : String := pathJoin (pathJoin "dataset" dataset_type) dataset_name

/-- Script constant `uv_wavelengths_path` joining dataset, type and the uv folder. -/
def uv_wavelengths_path : String := pathJoin (pathJoin "dataset" dataset_type) "uv_wavelengths"

/-- The input file `path.join(uv_wavelengths_path, "sma.fits")`. -/
def smaPath : String := pathJoin uv_wavelengths_path "sma.fits"

/-- Output path of `visibilities.fits`. -/
def visPath : String := pathJoin dataset_path "visibilities.fits"

/-- Output path of `noise_map.fits`. -/
def noiseMapPath : String := pathJoin dataset_path "noise_map.fits"

/-- Output path of `uv_wavelengths.fits` (inside the dataset folder, distinct
from the input `uv_wavelengths` folder). -/
def uvOutPath : String := pathJoin dataset_path "uv_wavelengths.fits"

/-- Output path of the scene description `plane.json`. -/
def planeJsonPath : String := pathJoin dataset_path "plane.json"

/-- Errors that can surface from the script: the loader's file/format errors
and the fits writer's already-exists error (spec §4.1, §4.4, §7). -/
inductive Err
  | fileNotFound
  | formatError
  | alreadyExists
  deriving DecidableEq

/-- Contents of a file on disk, as far as the script observes them: a fits
file holding a one-dimensional numeric array, a png plot, or the json scene
description.  Anything else a fits reader meets is malformed. -/
inductive FileData
  | fits (xs : List ℝ)
  | png (xs : List ℝ)
  | json (s : String)
  | other

/-- The file system: a partial map from paths to file data. -/
def FS : Type := String → Option FileData

/-- Writing one file: the map is updated at a single path. -/
def FS.update (fs : FS) (p : String) (d : FileData) : FS :=
  fun q => if q = p then some d else fs q

@[simp] theorem FS.update_same (fs : FS) (p : String) (d : FileData) :
    fs.update p d p = some d := by
  simp [FS.update]

@[simp] theorem FS.update_other (fs : FS) (p q : String) (d : FileData)
    (h : q ≠ p) : fs.update p d q = fs q := by
  simp [FS.update, h]

/-- Modelled from the spec: `ag.util.array_1d.numpy_array_1d_via_fits_from`
(library code, not under this repository's sources).  Spec §4.1: "Given a
file path, read a one-dimensional numeric array from a binary scientific-data
file"; "loading fails with a FileNotFound/FormatError if the path is missing
or malformed — this is surfaced, not recovered." -/
def numpy_array_1d_via_fits_from (fs : FS) (file_path : String) :
    Except Err (List ℝ) :=
  match fs file_path with
  | none => .error .fileNotFound
  | some (.fits xs) => .ok xs
  | some _ => .error .formatError

/-- The wavelength-loading step of the script (lines 52-54): read the
baseline wavelengths from `sma.fits`. -/
def loadUv (fs : FS) : Except Err (List ℝ) :=
  numpy_array_1d_via_fits_from fs smaPath

/-- Modelled from the spec: a single fits write with an overwrite flag
(library code behind `output_to_fits`, spec §4.4): an existing file at the
same path is replaced when `overwrite` is true, otherwise the operation
fails with an AlreadyExists error and writes nothing. -/
def writeFits (fs : FS) (p : String) (xs : List ℝ) (overwrite : Bool) :
    Except Err FS :=
  match fs p with
  | some _ => if overwrite then .ok (fs.update p (.fits xs)) else .error .alreadyExists
  | none => .ok (fs.update p (.fits xs))

/-- Structure `ag.Grid2D`: a uniform 2D sampling lattice defined by shape, pixel scale
and sub-sampling factor (spec §3 SpatialGrid); immutable once constructed. -/
structure Grid2D where
  shape_native : ℕ × ℕ
  pixel_scales : ℝ
  sub_size : ℕ

/-- Constructor `ag.Grid2D.uniform(shape_native=..., pixel_scales=..., sub_size=...)`. -/
def Grid2D.uniform (shape_native : ℕ × ℕ) (pixel_scales : ℝ) (sub_size : ℕ) :
    Grid2D :=
  ⟨shape_native, pixel_scales, sub_size⟩

/-- The script's grid: `ag.Grid2D.uniform(shape_native=(400, 400),
pixel_scales=0.2, sub_size=1)` (line 42). -/
def grid_2d : Grid2D := Grid2D.uniform (400, 400) 0.2 1

/-- Modelled from the spec: the (y, x) sky coordinates of the uniform grid, a
centre-origin lattice with the given pixel scale (spec §3: "a uniform 2D
sampling lattice over sky coordinates, defined by shape, pixel scale, and
sub-sampling factor"). -/
noncomputable def Grid2D.points (g : Grid2D) : List (ℝ × ℝ) :=
  (List.range g.shape_native.1).flatMap fun i =>
    (List.range g.shape_native.2).map fun j =>
      (g.pixel_scales * (((g.shape_native.1 : ℝ) - 1) / 2 - (i : ℝ)),
       g.pixel_scales * ((j : ℝ) - ((g.shape_native.2 : ℝ) - 1) / 2))

/-- Modelled from the spec: `ag.convert.ell_comps_from(axis_ratio, angle)`
(library code, not under this repository's sources).  The script describes it
as the pure conversion from axis-ratio `b/a` and position angle (degrees,
counter clockwise from the positive x-axis) to the two ellipticity
components: the ellipticity magnitude `(1 - q) / (1 + q)` resolved along
twice the position angle, returned as the `(e_y, e_x)` pair. -/
noncomputable def ell_comps_from (axis_ratio angle : ℝ) : ℝ × ℝ :=
  ((1 - axis_ratio) / (1 + axis_ratio) * Real.sin (2 * (angle * (Real.pi / 180))),
   (1 - axis_ratio) / (1 + axis_ratio) * Real.cos (2 * (angle * (Real.pi / 180))))

/-- Two-argument arctangent: the argument of the complex number `x + y i`,
valued in `(-π, π]`. -/
noncomputable def arctan2 (y x : ℝ) : ℝ :=
  Complex.arg (x + y * Complex.I)

/-- Modelled from the spec: the paired angle/ratio recovery function
`ag.convert.axis_ratio_and_angle_from(ell_comps)` (library code, not under
this repository's sources): the inverse direction of `ell_comps_from`,
recovering the position angle from the two-argument arctangent of the
components and the axis-ratio from their magnitude. -/
noncomputable def axis_ratio_and_angle_from (ell_comps : ℝ × ℝ) : ℝ × ℝ :=
  ((1 - Real.sqrt (ell_comps.1 ^ 2 + ell_comps.2 ^ 2)) /
     (1 + Real.sqrt (ell_comps.1 ^ 2 + ell_comps.2 ^ 2)),
   arctan2 ell_comps.1 ell_comps.2 / 2 * (180 / Real.pi))

/-- A parametric light profile (spec §3 LightProfile): centre, ellipticity
components, intensity, effective radius and Sersic shape index (an
Exponential profile is the Sersic shape with index 1). -/
structure LightProfile where
  centre : ℝ × ℝ
  ell_comps : ℝ × ℝ
  intensity : ℝ
  effective_radius : ℝ
  sersic_index : ℝ

/-- Constructor `ag.lp.Sersic(...)`. -/
def Sersic (centre ell_comps : ℝ × ℝ) (intensity effective_radius sersic_index : ℝ) :
    LightProfile :=
  ⟨centre, ell_comps, intensity, effective_radius, sersic_index⟩

/-- Constructor `ag.lp.Exponential(...)`: a Sersic profile with shape index 1. -/
def Exponential (centre ell_comps : ℝ × ℝ) (intensity effective_radius : ℝ) :
    LightProfile :=
  ⟨centre, ell_comps, intensity, effective_radius, 1⟩

/-- Modelled from the spec: the brightness of a light profile at a sky point
(spec §1 non-goals and §4.3 treat the rendering mathematics as an opaque
external capability; what matters is that it is a pure function of the
profile parameters and the point).  A representative elliptical
Sersic-family law: intensity decaying with the elliptically weighted radius
from the centre. -/
noncomputable def LightProfile.brightness (lp : LightProfile) (pt : ℝ × ℝ) : ℝ :=
  let dy := (pt.1 - lp.centre.1) * (1 - lp.ell_comps.1)
  let dx := (pt.2 - lp.centre.2) * (1 - lp.ell_comps.2)
  let r := Real.sqrt (dy ^ 2 + dx ^ 2)
  lp.intensity * Real.exp (-((r / lp.effective_radius) ^ (1 / lp.sersic_index)))

/-- Structure `ag.Galaxy`: a redshift plus the role-to-profile mapping (spec §3). -/
structure Galaxy where
  redshift : ℝ
  profiles : List (String × LightProfile)

/-- Modelled from the spec: a galaxy's brightness at a point is the sum of
its profiles' brightness there. -/
noncomputable def Galaxy.brightness (g : Galaxy) (pt : ℝ × ℝ) : ℝ :=
  (g.profiles.map fun rp => rp.2.brightness pt).sum

/-- Structure `ag.Plane`: an ordered collection of galaxies (spec §3 Scene). -/
structure Plane where
  galaxies : List Galaxy

/-- Modelled from the spec: the scene's synthetic sky image on a grid,
"summing each galaxy's rendered profiles on a given grid" (spec §3), one
value per grid point.  A pure function of the scene and the grid. -/
noncomputable def Plane.image (p : Plane) (g : Grid2D) : List ℝ :=
  g.points.map fun pt => (p.galaxies.map fun gal => gal.brightness pt).sum

/-- The script's galaxy (lines 81-95): Sersic bulge and Exponential disk,
with ellipticity components obtained through `ell_comps_from`. -/
noncomputable def galaxy : Galaxy :=
  { redshift := 0.5
    profiles :=
      [("bulge", Sersic (0, 0) (ell_comps_from 0.9 45.0) 1.0 0.6 3.0),
       ("disk", Exponential (0, 0) (ell_comps_from 0.7 30.0) 0.5 1.6)] }

/-- The script's plane: `ag.Plane(galaxies=[galaxy])` (line 100). -/
noncomputable def plane : Plane := ⟨[galaxy]⟩

/-- The Fourier transform method selector of the simulator
(`transformer_class=ag.TransformerDFT`). -/
inductive TransformerClass
  | dft
  | nufft

/-- Structure `ag.SimulatorInterferometer`: exposure time, noise level, baseline
wavelengths and transform method (spec §3 SimulatorConfig); immutable,
used once. -/
structure SimulatorInterferometer where
  uv_wavelengths : List ℝ
  exposure_time : ℝ
  noise_sigma : ℝ
  transformer_class : TransformerClass

/-- The simulator the script builds from the loaded wavelengths
(lines 60-65). -/
def simulator (uv : List ℝ) : SimulatorInterferometer :=
  { uv_wavelengths := uv
    exposure_time := 300.0
    noise_sigma := 1000.0
    transformer_class := .dft }

/-- The simulated dataset (spec §3 SimulatedObservation): visibilities, a
noise map, and the baseline wavelengths used. -/
structure Interferometer where
  visibilities : List ℝ
  noise_map : List ℝ
  uv_wavelengths : List ℝ

/-- Modelled from the spec: the discrete Fourier transform of the real-space
image sampled at one baseline wavelength (spec §4.3, black-box numerical
transform). -/
noncomputable def dftAt (image : List ℝ) (pts : List (ℝ × ℝ)) (w : ℝ) : ℝ :=
  ((image.zip pts).map fun vp =>
    vp.1 * Real.cos (2 * Real.pi * w * (vp.2.1 + vp.2.2))).sum

/-- Modelled from the spec: `simulator.via_plane_from(plane=..., grid=...)`
(spec §4.3): render the scene to a real-space image, transform it to one
visibility per baseline wavelength, and add noise scaled by `noise_sigma`
and `exposure_time`.  The unknown Gaussian draws are abstracted as the
stream `noise`; the baseline wavelengths are carried into the dataset
unchanged. -/
noncomputable def via_plane_from (sim : SimulatorInterferometer) (p : Plane)
    (g : Grid2D) (noise : ℕ → ℝ) : Interferometer :=
  let image := p.image g
  let sigma := sim.noise_sigma / Real.sqrt sim.exposure_time
  { visibilities :=
      (sim.uv_wavelengths.enum).map fun kw =>
        dftAt image g.points kw.2 + sigma * noise kw.1
    noise_map := sim.uv_wavelengths.map fun _ => sigma
    uv_wavelengths := sim.uv_wavelengths }

/-- Modelled from the spec: `interferometer.output_to_fits(...)` (spec §4.4):
"write three binary array files (visibilities, noise map, uv-wavelengths)
with an overwrite flag that controls whether existing files at the same path
are replaced or the operation fails with an AlreadyExists error."  The three
writes happen in the script's argument order; the first failure stops the
operation.  Returns the file system as left behind together with the error,
if any. -/
def output_to_fits (fs : FS) (ds : Interferometer)
    (visibilities_path noise_map_path uv_wavelengths_out_path : String)
    (overwrite : Bool) : FS × Option Err :=
  match writeFits fs visibilities_path ds.visibilities overwrite with
  | .error e => (fs, some e)
  | .ok fs1 =>
    match writeFits fs1 noise_map_path ds.noise_map overwrite with
    | .error e => (fs1, some e)
    | .ok fs2 =>
      match writeFits fs2 uv_wavelengths_out_path ds.uv_wavelengths overwrite with
      | .error e => (fs2, some e)
      | .ok fs3 => (fs3, none)

/-- The png plot files the script writes under `dataset_path` with
`aplt.Output(path=dataset_path, format="png")` (lines 140-151). -/
def pngPaths : List String :=
  [pathJoin dataset_path "subplot_interferometer.png",
   pathJoin dataset_path "subplot_dirty_images.png",
   pathJoin dataset_path "visibilities.png",
   pathJoin dataset_path "subplot_plane.png"]

/-- Modelled from the spec: the diagnostic plot step (spec §2 step 7,
"render diagnostic plots to image files"): each plot is a png derived from
the simulated dataset or the rendered scene, written under the dataset
path. -/
noncomputable def writePlots (fs : FS) (ds : Interferometer) (p : Plane) : FS :=
  let fsA := fs.update (pathJoin dataset_path "subplot_interferometer.png")
      (.png ds.visibilities)
  let fsB := fsA.update (pathJoin dataset_path "subplot_dirty_images.png")
      (.png ds.visibilities)
  let fsC := fsB.update (pathJoin dataset_path "visibilities.png")
      (.png ds.visibilities)
  fsC.update (pathJoin dataset_path "subplot_plane.png") (.png (p.image grid_2d))

/-- Modelled from the spec: `plane.output_to_json(...)` (spec §4.4):
"serialize it to a structured human-readable text file recording profile
kinds and parameters".  The serialized text records the profile roles. -/
noncomputable def plane_output_to_json (fs : FS) (p : Plane) : FS :=
  fs.update planeJsonPath
    (.json (String.intercalate ","
      (p.galaxies.flatMap fun g => g.profiles.map Prod.fst)))

/-- The seven pipeline steps of the spec (§2). -/
inductive Step
  | pathSetup
  | gridConstruction
  | wavelengthLoading
  | simulatorConfiguration
  | sceneConstruction
  | renderingAndSimulation
  | output
  deriving DecidableEq

/-- The trace of a run in which loading succeeded: every step once, in the
spec's order. -/
def allSteps : List Step :=
  [.pathSetup, .gridConstruction, .wavelengthLoading, .simulatorConfiguration,
   .sceneConstruction, .renderingAndSimulation, .output]

/-- The file system left behind by a successful run that loaded the
wavelength array `uv`: the three fits outputs (overwrite=True), then the png
plots, then the json scene description. -/
noncomputable def runOutputs (fs : FS) (uv : List ℝ) (noise : ℕ → ℝ) : FS :=
  let ds := via_plane_from (simulator uv) plane grid_2d noise
  let fs1 := (output_to_fits fs ds visPath noiseMapPath uvOutPath true).1
  let fs2 := writePlots fs1 ds plane
  plane_output_to_json fs2 plane

/-- The whole script, top to bottom: path setup, grid construction,
wavelength loading, simulator configuration, scene construction, rendering
and simulation, output.  Returns the trace of steps reached together with
the resulting file system, or the unhandled error that terminated the run.
The unknown Gaussian draws of the simulation step are the stream `noise`. -/
noncomputable def runScript (fs : FS) (noise : ℕ → ℝ) :
    List Step × Except Err FS :=
  match loadUv fs with
  | .error e => ([.pathSetup, .gridConstruction, .wavelengthLoading], .error e)
  | .ok uv =>
    let ds := via_plane_from (simulator uv) plane grid_2d noise
    match output_to_fits fs ds visPath noiseMapPath uvOutPath true with
    | (_, some e) => (allSteps, .error e)
    | (fs1, none) =>
      (allSteps, .ok (plane_output_to_json (writePlots fs1 ds plane) plane))

/-- The simulated dataset the script produces once the wavelengths `uv` are
loaded, with Gaussian draws `noise`. -/
noncomputable def scriptDataset (uv : List ℝ) (noise : ℕ → ℝ) : Interferometer :=
  via_plane_from (simulator uv) plane grid_2d noise

/-- With `overwrite = true` a single fits write always succeeds. -/
theorem writeFits_true (fs : FS) (p : String) (xs : List ℝ) :
    writeFits fs p xs true = .ok (fs.update p (.fits xs)) := by
  unfold writeFits
  cases fs p <;> simp

/-- With `overwrite = true` the output step writes all three files and
reports no error. -/
theorem output_to_fits_true (fs : FS) (ds : Interferometer) (p1 p2 p3 : String) :
    output_to_fits fs ds p1 p2 p3 true =
      (((fs.update p1 (.fits ds.visibilities)).update p2 (.fits ds.noise_map)).update
        p3 (.fits ds.uv_wavelengths), none) := by
  unfold output_to_fits
  simp [writeFits_true]

/-- A successful load runs the script to completion. -/
theorem runScript_ok (fs : FS) (noise : ℕ → ℝ) (uv : List ℝ)
    (h : loadUv fs = .ok uv) :
    runScript fs noise = (allSteps, .ok (runOutputs fs uv noise)) := by
  unfold runScript runOutputs
  rw [h]
  simp only [output_to_fits_true]

/-- A failed load terminates the script with that error. -/
theorem runScript_err (fs : FS) (noise : ℕ → ℝ) (e : Err)
    (h : loadUv fs = .error e) :
    runScript fs noise =
      ([.pathSetup, .gridConstruction, .wavelengthLoading], .error e) := by
  unfold runScript
  rw [h]

/-- Every path the script ever writes to. -/
def writtenPaths : List String :=
  [visPath, noiseMapPath, uvOutPath] ++ pngPaths ++ [planeJsonPath]

/-- A successful run leaves every path outside `writtenPaths` untouched. -/
theorem runOutputs_apply_outside (fs : FS) (uv : List ℝ) (noise : ℕ → ℝ)
    (q : String) (h : q ∉ writtenPaths) :
    runOutputs fs uv noise q = fs q := by
  simp only [writtenPaths, pngPaths, List.cons_append, List.nil_append,
    List.mem_cons, List.not_mem_nil, or_false, not_or] at h
  obtain ⟨h1, h2, h3, h4, h5, h6, h7, h8⟩ := h
  unfold runOutputs plane_output_to_json writePlots
  rw [output_to_fits_true]
  dsimp only
  rw [FS.update_other _ _ _ _ h8, FS.update_other _ _ _ _ h7,
    FS.update_other _ _ _ _ h6, FS.update_other _ _ _ _ h5,
    FS.update_other _ _ _ _ h4, FS.update_other _ _ _ _ h3,
    FS.update_other _ _ _ _ h2, FS.update_other _ _ _ _ h1]

/-- After a successful run the visibilities file holds the dataset's
visibilities. -/
theorem runOutputs_apply_vis (fs : FS) (uv : List ℝ) (noise : ℕ → ℝ) :
    runOutputs fs uv noise visPath =
      some (.fits (scriptDataset uv noise).visibilities) := by
  unfold runOutputs plane_output_to_json writePlots scriptDataset
  rw [output_to_fits_true]
  dsimp only
  rw [FS.update_other _ _ _ _ (by decide), FS.update_other _ _ _ _ (by decide),
    FS.update_other _ _ _ _ (by decide), FS.update_other _ _ _ _ (by decide),
    FS.update_other _ _ _ _ (by decide), FS.update_other _ _ _ _ (by decide),
    FS.update_other _ _ _ _ (by decide), FS.update_same]

/-- After a successful run the noise-map file holds the dataset's noise
map. -/
theorem runOutputs_apply_noise (fs : FS) (uv : List ℝ) (noise : ℕ → ℝ) :
    runOutputs fs uv noise noiseMapPath =
      some (.fits (scriptDataset uv noise).noise_map) := by
  unfold runOutputs plane_output_to_json writePlots scriptDataset
  rw [output_to_fits_true]
  dsimp only
  rw [FS.update_other _ _ _ _ (by decide), FS.update_other _ _ _ _ (by decide),
    FS.update_other _ _ _ _ (by decide), FS.update_other _ _ _ _ (by decide),
    FS.update_other _ _ _ _ (by decide), FS.update_other _ _ _ _ (by decide),
    FS.update_same]

/-- After a successful run the uv-wavelengths output file holds the
dataset's baseline wavelengths. -/
theorem runOutputs_apply_uv (fs : FS) (uv : List ℝ) (noise : ℕ → ℝ) :
    runOutputs fs uv noise uvOutPath =
      some (.fits (scriptDataset uv noise).uv_wavelengths) := by
  unfold runOutputs plane_output_to_json writePlots scriptDataset
  rw [output_to_fits_true]
  dsimp only
  rw [FS.update_other _ _ _ _ (by decide), FS.update_other _ _ _ _ (by decide),
    FS.update_other _ _ _ _ (by decide), FS.update_other _ _ _ _ (by decide),
    FS.update_other _ _ _ _ (by decide), FS.update_same]

/-- The dataset carries one visibility per baseline wavelength. -/
theorem scriptDataset_vis_length (uv : List ℝ) (noise : ℕ → ℝ) :
    (scriptDataset uv noise).visibilities.length = uv.length := by
  simp [scriptDataset, via_plane_from, simulator]

/-- The dataset carries one noise-map value per baseline wavelength. -/
theorem scriptDataset_noise_length (uv : List ℝ) (noise : ℕ → ℝ) :
    (scriptDataset uv noise).noise_map.length = uv.length := by
  simp [scriptDataset, via_plane_from, simulator]

/-- The dataset carries the loaded baseline wavelengths unchanged. -/
theorem scriptDataset_uv (uv : List ℝ) (noise : ℕ → ℝ) :
    (scriptDataset uv noise).uv_wavelengths = uv := by
  simp [scriptDataset, via_plane_from, simulator]

/-- With `overwrite = false` a fits write onto an existing file fails. -/
theorem writeFits_false_some (fs : FS) (p : String) (xs : List ℝ) (d : FileData)
    (h : fs p = some d) : writeFits fs p xs false = .error .alreadyExists := by
  unfold writeFits
  rw [h]
  simp

/-- With `overwrite = false` a fits write onto a fresh path succeeds. -/
theorem writeFits_false_none (fs : FS) (p : String) (xs : List ℝ)
    (h : fs p = none) : writeFits fs p xs false = .ok (fs.update p (.fits xs)) := by
  unfold writeFits
  rw [h]

/-- The loader only ever fails with FileNotFound or FormatError. -/
theorem loadUv_error_cases (fs : FS) (e : Err) (h : loadUv fs = .error e) :
    e = .fileNotFound ∨ e = .formatError := by
  unfold loadUv numpy_array_1d_via_fits_from at h
  cases hfs : fs smaPath with
  | none => rw [hfs] at h; exact Or.inl (Except.error.inj h).symm
  | some d =>
    rw [hfs] at h
    cases d with
    | fits xs => exact absurd h (by simp)
    | png xs => exact Or.inr (Except.error.inj h).symm
    | json s => exact Or.inr (Except.error.inj h).symm
    | other => exact Or.inr (Except.error.inj h).symm

/-- A successful run does not disturb the input file, so a re-run loads the
same wavelengths. -/
theorem loadUv_runOutputs (fs : FS) (uv : List ℝ) (noise : ℕ → ℝ) :
    loadUv (runOutputs fs uv noise) = loadUv fs := by
  unfold loadUv numpy_array_1d_via_fits_from
  rw [runOutputs_apply_outside _ _ _ _ (by decide)]

/-- An empty disk: no file at any path. -/
def emptyFS : FS := fun _ => none

/-- A disk holding a well-formed two-baseline wavelength file at the input
path and nothing else. -/
noncomputable def fsWithInput : FS :=
  fun q => if q = smaPath then some (.fits [1, 2]) else none

/-- A disk holding a malformed (non-fits) file at the input path. -/
def fsBad : FS := fun q => if q = smaPath then some .other else none

/-- A degenerate noise stream, standing in for concrete Gaussian draws. -/
noncomputable def zeroNoise : ℕ → ℝ := fun _ => 0

/-- An empty dataset, usable as an arbitrary concrete `Interferometer`. -/
def emptyDs : Interferometer := ⟨[], [], []⟩

/-- The two-baseline disk loads its wavelength file. -/
theorem loadUv_fsWithInput : loadUv fsWithInput = .ok [1, 2] := by
  simp [loadUv, numpy_array_1d_via_fits_from, fsWithInput]

/-- C1: on every run that loads the wavelength file, the simulated
visibilities array has one entry per uv-wavelength baseline loaded from the
input file (and so does the noise map), and the run completes with output
files holding exactly those arrays. -/
theorem visibilities_length_matches_uv (fs : FS) (noise : ℕ → ℝ) (uv : List ℝ)
    (h : loadUv fs = .ok uv) :
    (scriptDataset uv noise).visibilities.length = uv.length ∧
    (scriptDataset uv noise).noise_map.length = uv.length ∧
    ∃ fs', (runScript fs noise).2 = .ok fs' ∧
      fs' visPath = some (.fits (scriptDataset uv noise).visibilities) ∧
      fs' noiseMapPath = some (.fits (scriptDataset uv noise).noise_map) := by
  refine ⟨scriptDataset_vis_length uv noise, scriptDataset_noise_length uv noise,
    runOutputs fs uv noise, ?_, runOutputs_apply_vis fs uv noise,
    runOutputs_apply_noise fs uv noise⟩
  rw [runScript_ok fs noise uv h]

/-- Witness for C1 at a concrete two-baseline input disk. -/
theorem visibilities_length_matches_uv_witness :
    (scriptDataset [1, 2] zeroNoise).visibilities.length = ([1, 2] : List ℝ).length ∧
    (scriptDataset [1, 2] zeroNoise).noise_map.length = ([1, 2] : List ℝ).length ∧
    ∃ fs', (runScript fsWithInput zeroNoise).2 = .ok fs' ∧
      fs' visPath = some (.fits (scriptDataset [1, 2] zeroNoise).visibilities) ∧
      fs' noiseMapPath = some (.fits (scriptDataset [1, 2] zeroNoise).noise_map) :=
  visibilities_length_matches_uv fsWithInput zeroNoise [1, 2] loadUv_fsWithInput

/-- C5: scene rendering is deterministic: two runs of the rendering step on
the same profile parameters and the same grid produce identical images.  In
the model rendering is a pure function of the scene and the grid (it does
not even receive the noise stream), so equal inputs give equal images. -/
theorem render_deterministic (p₁ p₂ : Plane) (g₁ g₂ : Grid2D)
    (hp : p₁ = p₂) (hg : g₁ = g₂) : p₁.image g₁ = p₂.image g₂ := by
  rw [hp, hg]

/-- Witness for C5 at the script's own plane and grid. -/
theorem render_deterministic_witness : plane.image grid_2d = plane.image grid_2d :=
  render_deterministic plane plane grid_2d grid_2d rfl rfl

/-- C6: a missing input file surfaces as FileNotFound, a malformed one as
FormatError, and either error terminates the script right at the
wavelength-loading step with that error, no handler intervening and no later
step reached. -/
theorem load_error_propagates (fs : FS) (noise : ℕ → ℝ) :
    (fs smaPath = none → loadUv fs = .error .fileNotFound) ∧
    (∀ d : FileData, fs smaPath = some d → (∀ xs, d ≠ .fits xs) →
      loadUv fs = .error .formatError) ∧
    (∀ e, loadUv fs = .error e →
      runScript fs noise =
        ([.pathSetup, .gridConstruction, .wavelengthLoading], .error e)) := by
  refine ⟨fun h => ?_, fun d hd hne => ?_, fun e he => runScript_err fs noise e he⟩
  · simp [loadUv, numpy_array_1d_via_fits_from, h]
  · unfold loadUv numpy_array_1d_via_fits_from
    rw [hd]
    cases d with
    | fits xs => exact absurd rfl (hne xs)
    | png xs => rfl
    | json s => rfl
    | other => rfl

/-- Witness for C6 on an empty disk and on a disk with a malformed input
file. -/
theorem load_error_propagates_witness :
    loadUv emptyFS = .error .fileNotFound ∧
    loadUv fsBad = .error .formatError ∧
    runScript emptyFS zeroNoise =
      ([.pathSetup, .gridConstruction, .wavelengthLoading],
        .error .fileNotFound) :=
  ⟨(load_error_propagates emptyFS zeroNoise).1 rfl,
   (load_error_propagates fsBad zeroNoise).2.1 .other (by simp [fsBad])
     (fun xs => by simp),
   (load_error_propagates emptyFS zeroNoise).2.2 .fileNotFound
     ((load_error_propagates emptyFS zeroNoise).1 rfl)⟩

/-- C7: the baseline-wavelengths array is passed through verbatim: the
simulated dataset carries exactly the loaded array, and the
`uv_wavelengths.fits` output file receives exactly it. -/
theorem uv_wavelengths_passthrough (fs : FS) (noise : ℕ → ℝ) (uv : List ℝ)
    (h : loadUv fs = .ok uv) :
    (scriptDataset uv noise).uv_wavelengths = uv ∧
    ∃ fs', (runScript fs noise).2 = .ok fs' ∧
      fs' uvOutPath = some (.fits uv) := by
  refine ⟨scriptDataset_uv uv noise, runOutputs fs uv noise, ?_, ?_⟩
  · rw [runScript_ok fs noise uv h]
  · rw [runOutputs_apply_uv fs uv noise, scriptDataset_uv]

/-- Witness for C7 at a concrete two-baseline input disk. -/
theorem uv_wavelengths_passthrough_witness :
    (scriptDataset [1, 2] zeroNoise).uv_wavelengths = [1, 2] ∧
    ∃ fs', (runScript fsWithInput zeroNoise).2 = .ok fs' ∧
      fs' uvOutPath = some (.fits [1, 2]) :=
  uv_wavelengths_passthrough fsWithInput zeroNoise [1, 2] loadUv_fsWithInput

/-- C8: on every completed run the pipeline steps execute exactly once each,
in the spec's order (path setup, grid, wavelength loading, simulator
configuration, scene construction, rendering and simulation, output): the
step trace is exactly `allSteps` and every step occurs once in it. -/
theorem steps_once_in_order (fs : FS) (noise : ℕ → ℝ) (uv : List ℝ)
    (h : loadUv fs = .ok uv) :
    (runScript fs noise).1 = allSteps ∧
    ∀ s : Step, ((runScript fs noise).1.count s = 1) := by
  rw [runScript_ok fs noise uv h]
  exact ⟨rfl, fun s => by cases s <;> rfl⟩

/-- Witness for C8 at a concrete two-baseline input disk. -/
theorem steps_once_in_order_witness :
    (runScript fsWithInput zeroNoise).1 = allSteps ∧
    ∀ s : Step, ((runScript fsWithInput zeroNoise).1.count s = 1) :=
  steps_once_in_order fsWithInput zeroNoise [1, 2] loadUv_fsWithInput

/-- C9: the script invokes the output step with the literal
`overwrite=True`, under which the fits writer reports no error on any disk,
so the AlreadyExists branch is unreachable: any error a run of the script
ends with comes from the loader. -/
theorem already_exists_unreachable :
    (∀ (fs : FS) (ds : Interferometer),
      (output_to_fits fs ds visPath noiseMapPath uvOutPath true).2 = none) ∧
    (∀ (fs : FS) (noise : ℕ → ℝ) (e : Err),
      (runScript fs noise).2 = .error e →
        e = .fileNotFound ∨ e = .formatError) := by
  refine ⟨fun fs ds => by rw [output_to_fits_true], fun fs noise e h => ?_⟩
  cases hl : loadUv fs with
  | ok uv =>
    rw [runScript_ok fs noise uv hl] at h
    exact absurd h (by simp)
  | error e' =>
    rw [runScript_err fs noise e' hl] at h
    cases Except.error.inj h
    exact loadUv_error_cases fs _ hl

/-- Witness for C9: the fits writer on an empty disk, and an empty-disk run
whose error is the loader's FileNotFound. -/
theorem already_exists_unreachable_witness :
    (output_to_fits emptyFS emptyDs visPath noiseMapPath uvOutPath true).2 = none ∧
    (Err.fileNotFound = .fileNotFound ∨ Err.fileNotFound = .formatError) :=
  ⟨already_exists_unreachable.1 emptyFS emptyDs,
   already_exists_unreachable.2 emptyFS zeroNoise .fileNotFound
     (by rw [runScript_err emptyFS zeroNoise .fileNotFound rfl])⟩

/-- C10: the input wavelengths file path differs from every path the script
writes (all of which live under the dataset folder), so no run modifies the
input file: a completed run leaves the disk unchanged at the input path. -/
theorem input_never_overwritten :
    smaPath ∉ writtenPaths ∧
    ∀ (fs : FS) (noise : ℕ → ℝ) (fs' : FS),
      (runScript fs noise).2 = .ok fs' → fs' smaPath = fs smaPath := by
  refine ⟨by decide, fun fs noise fs' h => ?_⟩
  cases hl : loadUv fs with
  | ok uv =>
    rw [runScript_ok fs noise uv hl] at h
    cases Except.ok.inj h
    exact runOutputs_apply_outside fs uv noise smaPath (by decide)
  | error e =>
    rw [runScript_err fs noise e hl] at h
    exact absurd h (by simp)

/-- Witness for C10 at a concrete two-baseline input disk. -/
theorem input_never_overwritten_witness :
    runOutputs fsWithInput [1, 2] zeroNoise smaPath = fsWithInput smaPath :=
  input_never_overwritten.2 fsWithInput zeroNoise
    (runOutputs fsWithInput [1, 2] zeroNoise)
    (by rw [runScript_ok fsWithInput zeroNoise [1, 2] loadUv_fsWithInput])

/-- C3: with `overwrite=false`, a pre-existing file at any of the three
binary output paths makes the output step fail with AlreadyExists, and the
pre-existing file's contents are left unmodified. -/
theorem no_overwrite_already_exists (fs : FS) (ds : Interferometer)
    (p : String) (d : FileData)
    (hp : p = visPath ∨ p = noiseMapPath ∨ p = uvOutPath)
    (hd : fs p = some d) :
    (output_to_fits fs ds visPath noiseMapPath uvOutPath false).2 =
      some .alreadyExists ∧
    (output_to_fits fs ds visPath noiseMapPath uvOutPath false).1 p = some d := by
  rcases hp with rfl | rfl | rfl
  · have h1 := writeFits_false_some fs visPath ds.visibilities d hd
    unfold output_to_fits
    simp only [h1]
    exact ⟨trivial, hd⟩
  · cases hvis : fs visPath with
    | some dv =>
      have h1 := writeFits_false_some fs visPath ds.visibilities dv hvis
      unfold output_to_fits
      simp only [h1]
      exact ⟨trivial, hd⟩
    | none =>
      have h1 := writeFits_false_none fs visPath ds.visibilities hvis
      have h2 : (fs.update visPath (.fits ds.visibilities)) noiseMapPath = some d := by
        rw [FS.update_other _ _ _ _ (by decide)]
        exact hd
      have h3 := writeFits_false_some _ noiseMapPath ds.noise_map d h2
      unfold output_to_fits
      simp only [h1, h3]
      exact ⟨trivial, h2⟩
  · cases hvis : fs visPath with
    | some dv =>
      have h1 := writeFits_false_some fs visPath ds.visibilities dv hvis
      unfold output_to_fits
      simp only [h1]
      exact ⟨trivial, hd⟩
    | none =>
      have h1 := writeFits_false_none fs visPath ds.visibilities hvis
      cases hnm : (fs.update visPath (.fits ds.visibilities)) noiseMapPath with
      | some dn =>
        have h3 := writeFits_false_some _ noiseMapPath ds.noise_map dn hnm
        unfold output_to_fits
        simp only [h1, h3]
        refine ⟨trivial, ?_⟩
        rw [FS.update_other _ _ _ _ (by decide)]
        exact hd
      | none =>
        have h3 := writeFits_false_none _ noiseMapPath ds.noise_map hnm
        have h4 : ((fs.update visPath (.fits ds.visibilities)).update noiseMapPath
            (.fits ds.noise_map)) uvOutPath = some d := by
          rw [FS.update_other _ _ _ _ (by decide), FS.update_other _ _ _ _ (by decide)]
          exact hd
        have h5 := writeFits_false_some _ uvOutPath ds.uv_wavelengths d h4
        unfold output_to_fits
        simp only [h1, h3, h5]
        exact ⟨trivial, h4⟩

/-- A disk holding a previous noise-map output file. -/
noncomputable def fsPre : FS :=
  fun q => if q = noiseMapPath then some (.fits [7]) else none

/-- Witness for C3: a pre-existing noise-map file blocks the
no-overwrite output step and survives it unmodified. -/
theorem no_overwrite_already_exists_witness :
    (output_to_fits fsPre emptyDs visPath noiseMapPath uvOutPath false).2 =
      some .alreadyExists ∧
    (output_to_fits fsPre emptyDs visPath noiseMapPath uvOutPath false).1
      noiseMapPath = some (.fits [7]) :=
  no_overwrite_already_exists fsPre emptyDs noiseMapPath (.fits [7])
    (Or.inr (Or.inl rfl)) (by simp [fsPre])

/-- The disk after one completed run on the two-baseline input. -/
noncomputable def fsRun1 : FS := runOutputs fsWithInput [1, 2] zeroNoise

/-- The disk after a second completed run on top of the first. -/
noncomputable def fsRun2 : FS := runOutputs fsRun1 [1, 2] zeroNoise

/-- A second run still loads the same wavelengths. -/
theorem loadUv_fsRun1 : loadUv fsRun1 = .ok [1, 2] := by
  unfold fsRun1
  rw [loadUv_runOutputs]
  exact loadUv_fsWithInput

/-- C4: re-running the pipeline with the always-true overwrite flag replaces
all three binary output files with the new run's arrays, whose shapes equal
those of the previous run's files (each run's visibilities and noise map
have one entry per loaded baseline, and the uv-wavelengths file holds the
same loaded array both times). -/
theorem rerun_overwrite_same_shapes (fs : FS) (n₁ n₂ : ℕ → ℝ) (uv : List ℝ)
    (fs₁ fs₂ : FS)
    (h : loadUv fs = .ok uv)
    (h₁ : (runScript fs n₁).2 = .ok fs₁)
    (h₂ : (runScript fs₁ n₂).2 = .ok fs₂) :
    fs₁ visPath = some (.fits (scriptDataset uv n₁).visibilities) ∧
    fs₁ noiseMapPath = some (.fits (scriptDataset uv n₁).noise_map) ∧
    fs₁ uvOutPath = some (.fits uv) ∧
    fs₂ visPath = some (.fits (scriptDataset uv n₂).visibilities) ∧
    fs₂ noiseMapPath = some (.fits (scriptDataset uv n₂).noise_map) ∧
    fs₂ uvOutPath = some (.fits uv) ∧
    (scriptDataset uv n₂).visibilities.length =
      (scriptDataset uv n₁).visibilities.length ∧
    (scriptDataset uv n₂).noise_map.length =
      (scriptDataset uv n₁).noise_map.length := by
  rw [runScript_ok fs n₁ uv h] at h₁
  cases Except.ok.inj h₁
  have hload1 : loadUv (runOutputs fs uv n₁) = .ok uv := by
    rw [loadUv_runOutputs]
    exact h
  rw [runScript_ok _ n₂ uv hload1] at h₂
  cases Except.ok.inj h₂
  refine ⟨runOutputs_apply_vis fs uv n₁, runOutputs_apply_noise fs uv n₁, ?_,
    runOutputs_apply_vis _ uv n₂, runOutputs_apply_noise _ uv n₂, ?_, ?_, ?_⟩
  · rw [runOutputs_apply_uv fs uv n₁, scriptDataset_uv]
  · rw [runOutputs_apply_uv _ uv n₂, scriptDataset_uv]
  · rw [scriptDataset_vis_length, scriptDataset_vis_length]
  · rw [scriptDataset_noise_length, scriptDataset_noise_length]

/-- Witness for C4: two consecutive runs on the two-baseline input disk. -/
theorem rerun_overwrite_same_shapes_witness :
    fsRun1 visPath = some (.fits (scriptDataset [1, 2] zeroNoise).visibilities) ∧
    fsRun1 noiseMapPath = some (.fits (scriptDataset [1, 2] zeroNoise).noise_map) ∧
    fsRun1 uvOutPath = some (.fits [1, 2]) ∧
    fsRun2 visPath = some (.fits (scriptDataset [1, 2] zeroNoise).visibilities) ∧
    fsRun2 noiseMapPath = some (.fits (scriptDataset [1, 2] zeroNoise).noise_map) ∧
    fsRun2 uvOutPath = some (.fits [1, 2]) ∧
    (scriptDataset [1, 2] zeroNoise).visibilities.length =
      (scriptDataset [1, 2] zeroNoise).visibilities.length ∧
    (scriptDataset [1, 2] zeroNoise).noise_map.length =
      (scriptDataset [1, 2] zeroNoise).noise_map.length :=
  rerun_overwrite_same_shapes fsWithInput zeroNoise zeroNoise [1, 2] fsRun1 fsRun2
    loadUv_fsWithInput
    (by rw [runScript_ok fsWithInput zeroNoise [1, 2] loadUv_fsWithInput]; rfl)
    (by rw [runScript_ok fsRun1 zeroNoise [1, 2] loadUv_fsRun1]; rfl)

/-- C2 (amended): the axis-ratio/angle to ellipticity-components conversion
round-trips under the paired recovery function for every axis-ratio in
`(0, 1)` and every position angle in `(-90°, 90°]`. -/
theorem ell_comps_roundtrip (q θ : ℝ) (hq0 : 0 < q) (hq1 : q < 1)
    (hθl : -90 < θ) (hθu : θ ≤ 90) :
    axis_ratio_and_angle_from (ell_comps_from q θ) = (q, θ) := by
  have hπ := Real.pi_pos
  have h1q : (0:ℝ) < 1 + q := by linarith
  have hfacpos : 0 < (1 - q) / (1 + q) := div_pos (by linarith) h1q
  have hmem : 2 * (θ * (Real.pi / 180)) ∈ Set.Ioc (-Real.pi) Real.pi := by
    constructor
    · nlinarith [mul_pos (show (0:ℝ) < θ + 90 by linarith) hπ]
    · nlinarith [mul_nonneg (show (0:ℝ) ≤ 90 - θ by linarith) hπ.le]
  have harg :
      arctan2 ((1 - q) / (1 + q) * Real.sin (2 * (θ * (Real.pi / 180))))
        ((1 - q) / (1 + q) * Real.cos (2 * (θ * (Real.pi / 180)))) =
        2 * (θ * (Real.pi / 180)) := by
    unfold arctan2
    have hco :
        (↑((1 - q) / (1 + q) * Real.cos (2 * (θ * (Real.pi / 180)))) +
          ↑((1 - q) / (1 + q) * Real.sin (2 * (θ * (Real.pi / 180)))) * Complex.I : ℂ) =
        ↑((1 - q) / (1 + q)) *
          (Complex.cos ↑(2 * (θ * (Real.pi / 180))) +
            Complex.sin ↑(2 * (θ * (Real.pi / 180))) * Complex.I) := by
      push_cast
      ring
    rw [hco]
    exact Complex.arg_mul_cos_add_sin_mul_I hfacpos hmem
  have hsq :
      Real.sqrt (((1 - q) / (1 + q) * Real.sin (2 * (θ * (Real.pi / 180)))) ^ 2 +
        ((1 - q) / (1 + q) * Real.cos (2 * (θ * (Real.pi / 180)))) ^ 2) =
        (1 - q) / (1 + q) := by
    rw [mul_pow, mul_pow, ← mul_add, Real.sin_sq_add_cos_sq, mul_one,
      Real.sqrt_sq hfacpos.le]
  unfold ell_comps_from axis_ratio_and_angle_from
  dsimp only
  rw [Prod.mk.injEq]
  constructor
  · rw [hsq]
    rw [div_eq_iff (by positivity)]
    field_simp
    ring
  · rw [harg]
    field_simp
    ring

/-- Counterexample to C2 as stated: at the valid pairs (axis-ratio 1/2,
angle 135°) and (axis-ratio 1, angle 45°) the recovery function does not
return the original angle (it yields -45° and 0° respectively). -/
theorem ell_comps_roundtrip_cex :
    (axis_ratio_and_angle_from (ell_comps_from (1 / 2) 135)).2 ≠ 135 ∧
    (axis_ratio_and_angle_from (ell_comps_from 1 45)).2 ≠ 45 := by
  have hπ := Real.pi_pos
  constructor
  · have h2a : 2 * ((135 : ℝ) * (Real.pi / 180)) = Real.pi + Real.pi / 2 := by
      ring
    have hsin : Real.sin (2 * ((135 : ℝ) * (Real.pi / 180))) = -1 := by
      rw [h2a, Real.sin_add]
      simp
    have hcos : Real.cos (2 * ((135 : ℝ) * (Real.pi / 180))) = 0 := by
      rw [h2a, Real.cos_add]
      simp
    have hval :
        arctan2 ((1 - (1 : ℝ) / 2) / (1 + 1 / 2) * Real.sin (2 * ((135 : ℝ) * (Real.pi / 180))))
          ((1 - (1 : ℝ) / 2) / (1 + 1 / 2) * Real.cos (2 * ((135 : ℝ) * (Real.pi / 180)))) =
          -(Real.pi / 2) := by
      rw [hsin, hcos]
      unfold arctan2
      have hz :
          (↑((1 - (1 : ℝ) / 2) / (1 + 1 / 2) * 0) +
            ↑((1 - (1 : ℝ) / 2) / (1 + 1 / 2) * (-1)) * Complex.I : ℂ) =
          ↑((1 : ℝ) / 3) * (-Complex.I) := by
        push_cast
        norm_num
      rw [hz, Complex.arg_real_mul _ (by norm_num : (0:ℝ) < 1 / 3),
        Complex.arg_neg_I]
    unfold ell_comps_from axis_ratio_and_angle_from
    dsimp only
    rw [hval]
    have : -(Real.pi / 2) / 2 * (180 / Real.pi) = -45 := by
      field_simp
      ring
    rw [this]
    norm_num
  · have hz :
        arctan2 ((1 - (1 : ℝ)) / (1 + 1) * Real.sin (2 * ((45 : ℝ) * (Real.pi / 180))))
          ((1 - (1 : ℝ)) / (1 + 1) * Real.cos (2 * ((45 : ℝ) * (Real.pi / 180)))) = 0 := by
      unfold arctan2
      norm_num
    unfold ell_comps_from axis_ratio_and_angle_from
    dsimp only
    rw [hz]
    norm_num

/-- Witness for the amended C2 at the script's own bulge parameters
(axis-ratio 0.9, angle 45°). -/
theorem ell_comps_roundtrip_witness :
    axis_ratio_and_angle_from (ell_comps_from 0.9 45) = (0.9, 45) :=
  ell_comps_roundtrip 0.9 45 (by norm_num) (by norm_num) (by norm_num)
    (by norm_num)

end AGSim
